import Mathlib

/-!
# A shallow embedding of the mounttab synchronization coordinator

This file embeds the core of `src/cli/src/model.rs` (the `WorkspaceManager`
and its message types) as executable Lean definitions and proves properties
of the embedded code.

Modelling conventions:
* The filesystem-apply primitive `apply_action_to_fs` and the watcher
  primitive `file_watcher::async_watch` live outside the sources; they are
  passed in as oracle parameters (`fsApply`, and the watcher's output as a
  list of already-detected actions).
* A Rust `panic!` is modelled as `Except.error msg`; a normal return is
  `Except.ok`.
* Observable effects (channel sends, flag writes, filesystem applications,
  logged errors, task spawns) are recorded as an ordered `List Event`, so
  that temporal claims ("X happens before Y") become statements about
  positions in that list.
-/

namespace Mounttab

/-- `Tab` from model.rs (lines 61-67): a named URL slot with an open flag. -/
structure Tab where
  name : String
  url : String
  is_open : Bool
deriving DecidableEq, Repr

/-- `Workspace` from model.rs (lines 39-45). -/
structure Workspace where
  id : String
  name : String
  path : String
  tabs : List Tab
deriving DecidableEq, Repr

/-- `ApiWorkspace` from model.rs (lines 47-52): the client-facing view of a
workspace; note it has no `path` field. -/
structure ApiWorkspace where
  id : String
  name : String
  tabs : List Tab
deriving DecidableEq, Repr

/-- `WorkspaceAction` from model.rs (lines 69-77). -/
inductive WorkspaceAction where
  | OpenTab (name : String)
  | CloseTab (name : String)
  | ChangeTabUrl (name url : String)
  | CreateTab (name : String)
  | RemoveTab (name : String)
deriving DecidableEq, Repr

/-- `ToBrowserMessage` from model.rs (lines 10-16). -/
inductive ToBrowserMessage where
  | AllWorkspaces (ws : List Workspace)
  | WorkspaceAction (a : WorkspaceAction)
  | LoadWorkspace (w : ApiWorkspace)
deriving DecidableEq, Repr

/-- `FromBrowserMessage` from model.rs (lines 18-23). -/
inductive FromBrowserMessage where
  | StartWorkspace (id : String)
  | WorkspaceAction (id : String) (a : WorkspaceAction)
deriving DecidableEq, Repr

/-- An observable effect of the coordinator, in program order.
`send` is a successful `tx.send`; `sendFailed` is a send attempted on a
closed channel (the `Err` branch of `send`, logged and ignored in the
source); `setFlag` is a write to the `ignore_next_action` flag;
`applyFs` is an invocation of `apply_action_to_fs`; `logError` is an
error printed by an `Err`/`unwrap_or_else` arm; `spawnWatch` is the
`tokio::spawn` of a watch task bound to a workspace path. -/
inductive Event where
  | send (m : ToBrowserMessage)
  | sendFailed (m : ToBrowserMessage)
  | setFlag (b : Bool)
  | applyFs (path : String) (a : WorkspaceAction)
  | logError (s : String)
  | spawnWatch (path : String)
deriving DecidableEq, Repr

/-- The `iter().find(|workspace| workspace.id == id)` pattern used at
model.rs lines 124-127 and 159-161. -/
def findWorkspace (ws : List Workspace) (id : String) : Option Workspace :=
  ws.find? (fun w => w.id == id)

/-- The panic message raised by `unwrap_or_else(|| panic!(...))` at
model.rs lines 128-130 and 162 (source text: a formatted
"could not find workspace with id" message). -/
def noWorkspacePanic (id : String) : String :=
  "no workspace found with id: " ++ id

/-- Model of `WorkspaceManager::start` (model.rs lines 149-184), up to and
including spawning the watch task. `live` is the result of the fresh
`self.get_all_workspaces().await` performed at line 157 — `start` re-reads
the store rather than using the connection snapshot. An unresolvable id
panics (line 162). On success the `LoadWorkspace` message built from
`ApiWorkspace { tabs, id, name }` (lines 174-178) is sent, then the watch
task is spawned on the workspace path (lines 186-195). -/
def start (live : List Workspace) (id : String) : Except String (List Event) :=
  match findWorkspace live id with
  | none => .error (noWorkspacePanic id)
  | some w =>
      .ok [Event.send (.LoadWorkspace ⟨w.id, w.name, w.tabs⟩),
           Event.spawnWatch w.path]

/-- The log text printed when `apply_action_to_fs` fails
(model.rs line 141). -/
def applyErrorLog (e : String) : String :=
  "Error applying action to fs " ++ e

/-- Model of the `FromBrowserMessage::WorkspaceAction(id, action)` arm of
`browser_connected` (model.rs lines 122-144). The id is resolved against
`workspaces` — the snapshot captured at connection time (line 99) — and an
unresolvable id panics (lines 128-130). Otherwise the suppression flag is
set to `true` (lines 134-135) and only then is `apply_action_to_fs`
invoked (line 136); a failed apply is logged (line 141) and nothing else
happens: the flag stays `true`, no message is sent, and the registry is
untouched. Returns the new flag value and the events in program order. -/
def handleAction (snapshot : List Workspace)
    (fsApply : String → WorkspaceAction → Except String Unit)
    (id : String) (a : WorkspaceAction) :
    Except String (Bool × List Event) :=
  match findWorkspace snapshot id with
  | none => .error (noWorkspacePanic id)
  | some w =>
      match fsApply w.path a with
      | .ok _ =>
          .ok (true, [Event.setFlag true, Event.applyFs w.path a])
      | .error e =>
          .ok (true, [Event.setFlag true, Event.applyFs w.path a,
                      Event.logError (applyErrorLog e)])

/-- One iteration of the `while let Some(from_browser_message)` loop of
`browser_connected` (model.rs lines 114-146). `live` is the store contents
at the moment the message is processed (used only by the
`StartWorkspace` arm, via `start`'s own re-read); `snapshot` is the list
captured at connection establishment (used only by the `WorkspaceAction`
arm). `flag` is the current `ignore_next_action` value; the result carries
the flag value after the message. -/
def handleMessage (live snapshot : List Workspace)
    (fsApply : String → WorkspaceAction → Except String Unit)
    (flag : Bool) : FromBrowserMessage → Except String (Bool × List Event)
  | .StartWorkspace id => (start live id).map (fun evs => (flag, evs))
  | .WorkspaceAction id a => handleAction snapshot fsApply id a

/-- Model of the watch-forward loop (model.rs lines 197-213) as compiled:
each action received from the file watcher is forwarded to the client as
`ToBrowserMessage::WorkspaceAction(action)`. The suppression check (lines
199-205) is commented out in the source, so the `ignore_next_action` flag
is neither read nor written: it is returned unchanged no matter how many
actions arrive. -/
def watchForward (flag : Bool) (actions : List WorkspaceAction) :
    Bool × List Event :=
  (flag, actions.map (fun a => Event.send (.WorkspaceAction a)))

/-- The watch-forward loop with the channel state made explicit. The watch
task is spawned detached at model.rs line 186 (its `JoinHandle` is
discarded) and nothing ever cancels it, so after the owning session's
control loop ends the task keeps consuming watcher events; each send on the
now-closed channel fails and the error is logged by `unwrap_or_else`
(lines 210-212) without stopping the loop. -/
def watchForwardCh (channelOpen : Bool) (actions : List WorkspaceAction) :
    List Event :=
  actions.map (fun a =>
    if channelOpen then Event.send (.WorkspaceAction a)
    else Event.sendFailed (.WorkspaceAction a))

/-- The control loop of `browser_connected` over a whole inbound message
sequence. Each message is paired with the store contents at the moment it
is processed (the store may be mutated concurrently by other tasks). A
panic (`.error`) aborts the loop; events already produced remain. Returns
the events in order, the final flag, and the panic message if any. -/
def runLoop (snapshot : List Workspace)
    (fsApply : String → WorkspaceAction → Except String Unit)
    (flag : Bool) :
    List (List Workspace × FromBrowserMessage) →
    List Event × Bool × Option String
  | [] => ([], flag, none)
  | (live, m) :: rest =>
      match handleMessage live snapshot fsApply flag m with
      | .error e => ([], flag, some e)
      | .ok (flag', evs) =>
          let r := runLoop snapshot fsApply flag' rest
          (evs ++ r.1, r.2)

/-- Model of `WorkspaceManager::browser_connected` (model.rs lines
94-147): the Workspace Store is snapshotted (line 99), the
`AllWorkspaces(snapshot)` message is sent (lines 101-110), the
suppression flag is created as `false` (line 112), and only then does the
loop start consuming inbound messages (line 114). -/
def browser_connected (snapshot : List Workspace)
    (fsApply : String → WorkspaceAction → Except String Unit)
    (msgs : List (List Workspace × FromBrowserMessage)) :
    List Event × Bool × Option String :=
  let r := runLoop snapshot fsApply false msgs
  (Event.send (.AllWorkspaces snapshot) :: r.1, r.2)

/-- The session trace of a successfully started workspace: the events of
`start` followed by the sends of its watch task, which forwards the
actions the watcher detects (in order). -/
def startTrace (live : List Workspace) (id : String)
    (watcherActions : List WorkspaceAction) : Except String (List Event) :=
  (start live id).map (fun evs => evs ++ (watchForward false watcherActions).2)

/-- The public operations of `WorkspaceManager` and their effect on the
registry `self.workspaces`. `load_workspaces` (lines 85-92) pushes one
workspace discovered from the hardcoded test root; `get_all_workspaces`
(lines 217-219) only reads; `make_worksapce` (line 222) has an empty body;
`browser_connected` (lines 94-147) reaches `self.workspaces` only through
`get_all_workspaces` (lines 99 and 157), a read. -/
inductive ManagerOp where
  | load_workspaces
  | get_all_workspaces
  | make_worksapce (path : String)
  | browser_connected
deriving DecidableEq, Repr

/-- The hardcoded root directory scanned by `load_workspaces`
(model.rs line 89). -/
def testRoot : String := "/home/tylord/dev/tabfs-rs/test"

/-- Model of `load_workspaces` (model.rs lines 85-92).
`Workspace::new_from_fs` is not among the sources; modelled from the spec:
`discover(root_path) -> Workspace` is a synchronous scan that fails if the
root is not a readable directory. Its Rust call site uses the returned
value directly (no `Result`), so a discovery failure can only surface as a
panic, which aborts the load before the push; on success exactly one
workspace, scanned from the single hardcoded root, is appended. -/
def load_workspaces (discover : String → Except String Workspace)
    (reg : List Workspace) : Except String (List Workspace) :=
  match discover testRoot with
  | .ok w => .ok (reg ++ [w])
  | .error e => .error e

/-- Registry effect of each public `WorkspaceManager` operation. A panic
during `load_workspaces` happens while evaluating the argument of `push`,
so the registry is left unchanged in that case. -/
def applyOp (discover : String → Except String Workspace) :
    ManagerOp → List Workspace → List Workspace
  | .load_workspaces, reg =>
      match load_workspaces discover reg with
      | .ok reg' => reg'
      | .error _ => reg
  | .get_all_workspaces, reg => reg
  | .make_worksapce _, reg => reg
  | .browser_connected, reg => reg

/-- Model of `make_worksapce` (model.rs line 222): the body is empty, so
both the registry and the filesystem (abstracted as an arbitrary type) are
returned unchanged. -/
def make_worksapce (_path : String) (reg : List Workspace) (fs : α) :
    List Workspace × α :=
  (reg, fs)

/-- Is this event a successful send of any message? -/
def isSend : Event → Bool
  | .send _ => true
  | _ => false

/-- Is this event a send of a `LoadWorkspace` message? -/
def isLoadSend : Event → Bool
  | .send (.LoadWorkspace _) => true
  | _ => false

/-- Is this event a send of an `AllWorkspaces` message? -/
def isAllWorkspacesSend : Event → Bool
  | .send (.AllWorkspaces _) => true
  | _ => false

/-- Is this event a send of an outbound `WorkspaceAction` message? -/
def isActionSend : Event → Bool
  | .send (.WorkspaceAction _) => true
  | _ => false

/-- Is this event a failed send attempt (closed channel)? -/
def isSendFailed : Event → Bool
  | .sendFailed _ => true
  | _ => false

/-! ## Concrete values used by witnesses and counterexamples -/

/-- A concrete workspace present from connection time. -/
def w1 : Workspace := ⟨"w1", "ws1", "/ws1", []⟩

/-- A concrete workspace added to the store after a connection opened. -/
def w2 : Workspace := ⟨"w2", "ws2", "/ws2", []⟩

/-- A filesystem-apply oracle that always succeeds. -/
def fsOk : String → WorkspaceAction → Except String Unit :=
  fun _ _ => .ok ()

/-- A filesystem-apply oracle that always fails. -/
def fsFail : String → WorkspaceAction → Except String Unit :=
  fun _ _ => .error "eperm"

/-- The workspace produced by a successful discovery of the test root. -/
def wTest : Workspace := ⟨"t", "test", testRoot, []⟩

/-- A discovery oracle that always succeeds with `wTest`. -/
def discoverOk : String → Except String Workspace :=
  fun _ => .ok wTest

/-- A discovery oracle that always fails (unreadable root). -/
def discoverFail : String → Except String Workspace :=
  fun _ => .error "unreadable root"

/-! ## Helper lemmas shared between claims -/

/-- Filtering the watch task's forwarded sends by any predicate that
rejects `WorkspaceAction` sends yields nothing. -/
theorem filter_watch_sends (p : Event → Bool)
    (hp : ∀ a : WorkspaceAction,
      p (Event.send (.WorkspaceAction a)) = false)
    (was : List WorkspaceAction) :
    (was.map (fun a => Event.send (.WorkspaceAction a))).filter p = [] := by
  induction was with
  | nil => rfl
  | cons a t ih => simp [List.filter_cons, hp, ih]

/-- No arm of the inbound-message handler ever produces an
`AllWorkspaces` send. -/
theorem handleAction_no_all_workspaces (snapshot : List Workspace)
    (fsApply : String → WorkspaceAction → Except String Unit)
    (id : String) (a : WorkspaceAction) (flag' : Bool) (evs : List Event)
    (h : handleAction snapshot fsApply id a = .ok (flag', evs)) :
    evs.filter isAllWorkspacesSend = [] := by
  cases hw : findWorkspace snapshot id with
  | none => simp [handleAction, hw] at h
  | some w =>
    cases hf : fsApply w.path a with
    | ok u =>
      simp [handleAction, hw, hf] at h
      obtain ⟨h1, h2⟩ := h
      subst h2
      rfl
    | error e =>
      simp [handleAction, hw, hf] at h
      obtain ⟨h1, h2⟩ := h
      subst h2
      rfl

/-- No arm of the control loop's per-message handler ever produces an
`AllWorkspaces` send. -/
theorem handleMessage_no_all_workspaces (live snapshot : List Workspace)
    (fsApply : String → WorkspaceAction → Except String Unit)
    (flag : Bool) (m : FromBrowserMessage) (flag' : Bool) (evs : List Event)
    (h : handleMessage live snapshot fsApply flag m = .ok (flag', evs)) :
    evs.filter isAllWorkspacesSend = [] := by
  cases m with
  | StartWorkspace id =>
    cases hw : findWorkspace live id with
    | none => simp [handleMessage, start, hw, Except.map] at h
    | some w =>
      simp [handleMessage, start, hw, Except.map] at h
      obtain ⟨h1, h2⟩ := h
      subst h2
      rfl
  | WorkspaceAction id a =>
    exact handleAction_no_all_workspaces _ _ _ _ _ _ h

/-- The control loop never produces an `AllWorkspaces` send. -/
theorem runLoop_no_all_workspaces (snapshot : List Workspace)
    (fsApply : String → WorkspaceAction → Except String Unit)
    (msgs : List (List Workspace × FromBrowserMessage)) (flag : Bool) :
    (runLoop snapshot fsApply flag msgs).1.filter isAllWorkspacesSend = [] := by
  induction msgs generalizing flag with
  | nil => rfl
  | cons hd tl ih =>
    obtain ⟨live, m⟩ := hd
    cases h : handleMessage live snapshot fsApply flag m with
    | error e => simp [runLoop, h]
    | ok r =>
      obtain ⟨flag', evs⟩ := r
      simp [runLoop, h, List.filter_append,
        handleMessage_no_all_workspaces live snapshot fsApply flag m flag' evs h,
        ih]

/-- Every single public operation leaves the registry as a (possibly
trivial) extension of what it was. -/
theorem applyOp_extends (discover : String → Except String Workspace)
    (op : ManagerOp) (reg : List Workspace) :
    ∃ t, applyOp discover op reg = reg ++ t := by
  cases op with
  | load_workspaces =>
    unfold applyOp load_workspaces
    cases discover testRoot with
    | ok w => exact ⟨[w], rfl⟩
    | error e => exact ⟨[], by simp⟩
  | get_all_workspaces => exact ⟨[], by simp [applyOp]⟩
  | make_worksapce p => exact ⟨[], by simp [applyOp]⟩
  | browser_connected => exact ⟨[], by simp [applyOp]⟩

/-! ## Claims -/

/-- C1: the claim states that when the watch-forward loop receives a
detected action while the suppression flag is set, it clears the flag and
discards that action; a client-originated write's echo is never forwarded
and an unrelated external change is forwarded exactly once. The compiled
code forwards every action and never touches the flag (the suppression
check at model.rs lines 199-205 is commented out): with the flag set after
a client `ChangeTabUrl("x", "http://a")`, the echo of that write and the
following unrelated `CreateTab("blog")` are both sent to the client, and
the flag is still set afterwards. -/
theorem c1_echo_forwarded_despite_flag :
    watchForward true
      [WorkspaceAction.ChangeTabUrl "x" "http://a",
       WorkspaceAction.CreateTab "blog"]
    = (true,
       [Event.send (.WorkspaceAction (.ChangeTabUrl "x" "http://a")),
        Event.send (.WorkspaceAction (.CreateTab "blog"))]) := rfl

/-- C2: the claim states that a `StartWorkspace` or `WorkspaceAction`
naming a workspace id absent from the session's snapshot is logged and
ignored without a crash. The code instead panics
(`unwrap_or_else(|| panic!(...))` at model.rs lines 128-130 and 162):
with the store holding only `w1`, both inbound messages for the unknown
id "nope" abort with the panic message. -/
theorem c2_unknown_id_panics :
    handleMessage [w1] [w1] fsOk false (.StartWorkspace "nope")
      = .error (noWorkspacePanic "nope")
    ∧ handleMessage [w1] [w1] fsOk false
        (.WorkspaceAction "nope" (.OpenTab "t"))
      = .error (noWorkspacePanic "nope") :=
  ⟨rfl, rfl⟩

/-- C3: for every client-originated `WorkspaceAction(id, action)` whose id
resolves against the snapshot, the suppression flag is set to `true`
strictly before `apply_action_to_fs` is invoked: the handler's event list
begins with `setFlag true` followed by the `applyFs` invocation, whatever
the apply outcome. -/
theorem c3_flag_set_before_apply (snapshot : List Workspace)
    (fsApply : String → WorkspaceAction → Except String Unit)
    (id : String) (a : WorkspaceAction) (w : Workspace)
    (hw : findWorkspace snapshot id = some w) :
    ∃ rest, handleAction snapshot fsApply id a
      = .ok (true, Event.setFlag true :: Event.applyFs w.path a :: rest) := by
  cases hf : fsApply w.path a with
  | ok u => exact ⟨[], by simp [handleAction, hw, hf]⟩
  | error e =>
    exact ⟨[Event.logError (applyErrorLog e)], by simp [handleAction, hw, hf]⟩

/-- Witness for C3 at a concrete input. -/
theorem c3_flag_set_before_apply_witness :
    ∃ rest, handleAction [w1] fsOk "w1" (.OpenTab "t")
      = .ok (true,
          Event.setFlag true :: Event.applyFs w1.path (.OpenTab "t") :: rest) :=
  c3_flag_set_before_apply [w1] fsOk "w1" (.OpenTab "t") w1 rfl

/-- C4 counterexample: the claim states that both `StartWorkspace` and
`WorkspaceAction` are resolved against the snapshot taken at connection
establishment, so a workspace added to the store after the connection
opened is invisible to both. But `start` re-reads the live store
(model.rs line 157): with snapshot `[w1]` and live store `[w1, w2]`,
`StartWorkspace("w2")` succeeds and loads `w2`, which the claim says is
invisible. -/
theorem c4_counterexample :
    handleMessage [w1, w2] [w1] fsOk false (.StartWorkspace "w2")
      = .ok (false,
          [Event.send (.LoadWorkspace ⟨"w2", "ws2", []⟩),
           Event.spawnWatch "/ws2"]) := rfl

/-- C4 amended: `WorkspaceAction` requests are resolved against the
snapshot taken at connection establishment (a workspace present only in
the live store is invisible to them and triggers the resolution panic),
while `StartWorkspace` requests are resolved against a fresh read of the
live store (such a workspace is visible and is loaded). -/
theorem c4_snapshot_vs_live (live snapshot : List Workspace)
    (fsApply : String → WorkspaceAction → Except String Unit)
    (flag : Bool) (id : String) (a : WorkspaceAction) (w : Workspace)
    (hsnap : findWorkspace snapshot id = none)
    (hlive : findWorkspace live id = some w) :
    handleMessage live snapshot fsApply flag (.StartWorkspace id)
      = .ok (flag,
          [Event.send (.LoadWorkspace ⟨w.id, w.name, w.tabs⟩),
           Event.spawnWatch w.path])
    ∧ handleMessage live snapshot fsApply flag (.WorkspaceAction id a)
      = .error (noWorkspacePanic id) := by
  constructor
  · simp [handleMessage, start, hlive, Except.map]
  · simp [handleMessage, handleAction, hsnap]

/-- Witness for C4's amended claim at a concrete input. -/
theorem c4_snapshot_vs_live_witness :
    handleMessage [w1, w2] [w1] fsOk false (.StartWorkspace "w2")
      = .ok (false,
          [Event.send (.LoadWorkspace ⟨w2.id, w2.name, w2.tabs⟩),
           Event.spawnWatch w2.path])
    ∧ handleMessage [w1, w2] [w1] fsOk false
        (.WorkspaceAction "w2" (.OpenTab "t"))
      = .error (noWorkspacePanic "w2") :=
  c4_snapshot_vs_live [w1, w2] [w1] fsOk false "w2" (.OpenTab "t") w2 rfl rfl

/-- C5: for a `StartWorkspace(id)` whose id resolves, the session trace
begins with exactly one `LoadWorkspace` send whose payload is precisely
the workspace's id, name and tabs (the `ApiWorkspace` type has no path
field, so the filesystem path is omitted), and no further `LoadWorkspace`
is sent afterwards; in particular the `LoadWorkspace` precedes every
`WorkspaceAction` send of the watch task. -/
theorem c5_load_workspace_first (live : List Workspace) (id : String)
    (was : List WorkspaceAction) (w : Workspace)
    (hw : findWorkspace live id = some w) :
    ∃ rest,
      startTrace live id was
        = .ok (Event.send (.LoadWorkspace ⟨w.id, w.name, w.tabs⟩) :: rest)
      ∧ rest.filter isLoadSend = [] := by
  refine ⟨Event.spawnWatch w.path
      :: (was.map (fun a => Event.send (.WorkspaceAction a))), ?_, ?_⟩
  · simp [startTrace, start, hw, Except.map, watchForward]
  · simp [List.filter_cons, isLoadSend,
      filter_watch_sends isLoadSend (fun a => rfl) was]

/-- Witness for C5 at a concrete input. -/
theorem c5_load_workspace_first_witness :
    ∃ rest,
      startTrace [w1] "w1" [WorkspaceAction.OpenTab "t"]
        = .ok (Event.send (.LoadWorkspace ⟨w1.id, w1.name, w1.tabs⟩) :: rest)
      ∧ rest.filter isLoadSend = [] :=
  c5_load_workspace_first [w1] "w1" [WorkspaceAction.OpenTab "t"] w1 rfl

/-- C6: when `apply_action_to_fs` fails for a resolvable workspace, the
handler returns normally (non-fatal) with the error logged, the
suppression flag is left set to `true`, the produced events contain no
send to the client, and the registry effect of the whole
`browser_connected` operation is the identity (no optimistic update). -/
theorem c6_failed_apply_non_fatal (snapshot : List Workspace)
    (fsApply : String → WorkspaceAction → Except String Unit)
    (id : String) (a : WorkspaceAction) (w : Workspace) (e : String)
    (hw : findWorkspace snapshot id = some w)
    (hf : fsApply w.path a = .error e)
    (discover : String → Except String Workspace) (reg : List Workspace) :
    handleAction snapshot fsApply id a
      = .ok (true, [Event.setFlag true, Event.applyFs w.path a,
                    Event.logError (applyErrorLog e)])
    ∧ [Event.setFlag true, Event.applyFs w.path a,
       Event.logError (applyErrorLog e)].filter isSend = []
    ∧ applyOp discover ManagerOp.browser_connected reg = reg := by
  refine ⟨?_, rfl, rfl⟩
  simp [handleAction, hw, hf]

/-- Witness for C6 at a concrete input. -/
theorem c6_failed_apply_non_fatal_witness :
    handleAction [w1] fsFail "w1" (.OpenTab "t")
      = .ok (true, [Event.setFlag true, Event.applyFs w1.path (.OpenTab "t"),
                    Event.logError (applyErrorLog "eperm")])
    ∧ [Event.setFlag true, Event.applyFs w1.path (.OpenTab "t"),
       Event.logError (applyErrorLog "eperm")].filter isSend = []
    ∧ applyOp discoverOk ManagerOp.browser_connected [w1] = [w1] :=
  c6_failed_apply_non_fatal [w1] fsFail "w1" (.OpenTab "t") w1 "eperm"
    rfl rfl discoverOk [w1]

/-- C7: on connection establishment the coordinator sends a single
`AllWorkspaces` message carrying the snapshot, as the very first event of
the session trace — before any event produced by processing inbound
messages — and no further `AllWorkspaces` send ever occurs in the trace. -/
theorem c7_all_workspaces_sent_first (snapshot : List Workspace)
    (fsApply : String → WorkspaceAction → Except String Unit)
    (msgs : List (List Workspace × FromBrowserMessage)) :
    ∃ rest,
      (browser_connected snapshot fsApply msgs).1
        = Event.send (.AllWorkspaces snapshot) :: rest
      ∧ rest.filter isAllWorkspacesSend = [] :=
  ⟨(runLoop snapshot fsApply false msgs).1, rfl,
   runLoop_no_all_workspaces snapshot fsApply msgs false⟩

/-- C8 counterexample: the claim states that when a client disconnects,
every watch task of that session is canceled and no further outbound send
occurs on the closed channel. The watch task is spawned detached
(model.rs line 186) and never canceled: with the session's channel closed,
the very next watcher event still makes the task attempt an outbound send
(which fails and is merely logged). -/
theorem c8_counterexample :
    watchForwardCh false [WorkspaceAction.OpenTab "t"]
      = [Event.sendFailed (.WorkspaceAction (.OpenTab "t"))] := rfl

/-- C8 amended: watch tasks are not canceled on client disconnect; the
detached task keeps consuming its watcher events (one send attempt per
event, so it runs until its own stream ends), and on the closed channel
every one of those attempts is a failed send that is logged without
panicking or stopping the loop. -/
theorem c8_no_cancellation (actions : List WorkspaceAction) :
    (watchForwardCh false actions).length = actions.length
    ∧ (watchForwardCh false actions).all isSendFailed = true := by
  constructor
  · simp [watchForwardCh]
  · induction actions with
    | nil => rfl
    | cons a t ih => simp_all [watchForwardCh, isSendFailed]

/-- C9 counterexample: the claim states that a discovery failure for one
root is logged and skips only that root's workspace, never aborting the
load. `Workspace::new_from_fs` returns a bare `Workspace` and its result
is pushed unconditionally (model.rs lines 88-90), so a failing discovery
can only panic: with a discovery oracle failing on the hardcoded root,
the whole load aborts and nothing is appended. -/
theorem c9_counterexample :
    load_workspaces discoverFail [] = .error "unreadable root" := rfl

/-- C9 amended: `load_workspaces` scans the single hardcoded root
`/home/tylord/dev/tabfs-rs/test` (there is no configured set of root
directories): a successful discovery appends exactly that one workspace
to the registry, and a discovery failure is not caught — it aborts the
load with the registry unchanged. -/
theorem c9_single_hardcoded_root
    (discover : String → Except String Workspace)
    (reg : List Workspace) (w : Workspace) (e : String) :
    (discover testRoot = .ok w →
      load_workspaces discover reg = .ok (reg ++ [w]))
    ∧ (discover testRoot = .error e →
      load_workspaces discover reg = .error e
      ∧ applyOp discover ManagerOp.load_workspaces reg = reg) := by
  constructor
  · intro h
    simp [load_workspaces, h]
  · intro h
    refine ⟨by simp [load_workspaces, h], by simp [applyOp, load_workspaces, h]⟩

/-- Witness for C9's amended claim at concrete inputs. -/
theorem c9_single_hardcoded_root_witness :
    load_workspaces discoverOk [] = .ok ([] ++ [wTest])
    ∧ load_workspaces discoverFail [] = .error "unreadable root"
    ∧ applyOp discoverFail ManagerOp.load_workspaces [] = [] :=
  ⟨(c9_single_hardcoded_root discoverOk [] wTest "unreadable root").1 rfl,
   ((c9_single_hardcoded_root discoverFail [] wTest "unreadable root").2 rfl).1,
   ((c9_single_hardcoded_root discoverFail [] wTest "unreadable root").2 rfl).2⟩

/-- C10: the registry grows monotonically: any sequence of public
`WorkspaceManager` operations leaves the initial registry as a prefix of
the result (so every workspace id once present stays present), and
`make_worksapce` returns both the registry and the filesystem argument
unchanged. -/
theorem c10_registry_monotone {α : Type}
    (discover : String → Except String Workspace)
    (ops : List ManagerOp) (reg : List Workspace)
    (p : String) (fsState : α) :
    (∃ t, ops.foldl (fun r op => applyOp discover op r) reg = reg ++ t)
    ∧ make_worksapce p reg fsState = (reg, fsState) := by
  refine ⟨?_, rfl⟩
  induction ops generalizing reg with
  | nil => exact ⟨[], by simp⟩
  | cons op rest ih =>
    obtain ⟨s, hs⟩ := applyOp_extends discover op reg
    obtain ⟨t, ht⟩ := ih (applyOp discover op reg)
    rw [hs] at ht
    exact ⟨s ++ t, by simp [List.foldl_cons, hs, ht, List.append_assoc]⟩

end Mounttab
